import Mathlib

/-!
Shallow embedding of the Breadboard starboard module (`src/__init__.py`).

The embedding models the pure data (`StarboardChannelConfig`,
`ChannelConfigOverride`, `GuildConfigs`), the reaction aggregation, the
SQLite-backed mirror-record store (`starred_messages` table), and the
reconciliation methods `update_starboard_message`,
`create_starboard_message`, `update_starboard_message_button`,
`delete_starboard_message` and the per-event fan-out of
`on_raw_reaction_update`.  External collaborators (Discord webhooks, the
message fetch) are modelled by explicit outcome parameters; the SQLite
statements are modelled over an explicit list of rows with the declared
schema constraints.
-/

namespace Breadboard

/-- Model of `discord.PartialEmoji`: either a unicode emoji (identified by
its name string) or a custom emoji (animated flag, name, numeric id). -/
inductive PartialEmoji where
  | unicode (name : String)
  | custom (animated : Bool) (name : String) (id : Nat)
  deriving DecidableEq, Repr

/-- The `name` attribute of a `PartialEmoji`. -/
def emojiName : PartialEmoji → String
  | .unicode n => n
  | .custom _ n _ => n

/-- The `id` attribute of a `PartialEmoji` (`None` for unicode emojis). -/
def emojiId : PartialEmoji → Option Nat
  | .unicode _ => none
  | .custom _ _ i => some i

/-- Model of `discord.PartialEmoji.__eq__`: a unicode emoji compares by name, a
custom emoji compares by id only. -/
def emojiEq (a b : PartialEmoji) : Bool :=
  match a with
  | .unicode n => n == emojiName b
  | .custom _ _ i => some i == emojiId b

/-- The `ChannelConfigOverride` dataclass (`src/__init__.py` lines 27-31). -/
structure ChannelConfigOverride where
  override_for : Nat
  required_reactions : Option Nat
  extra_emojis : Option (List PartialEmoji)
  deriving DecidableEq, Repr

/-- The `StarboardChannelConfig` dataclass (`src/__init__.py` lines 44-53).
The Python `dict` field `channel_overrides` is modelled as an
insertion-ordered association list. -/
structure StarboardChannelConfig where
  channel_id : Nat
  required_reactions : Nat
  watched_emojis : List PartialEmoji
  channel_overrides : List (Nat × ChannelConfigOverride)
  exclude : List Nat
  exclude_is_include : Bool
  deriving DecidableEq, Repr

/-- Lookup in a Python `dict` modelled as an association list. -/
def dictFind {α : Type} (m : List (Nat × α)) (k : Nat) : Option α :=
  (m.find? (fun p => p.1 == k)).map Prod.snd

/-- Model of `StarboardChannelConfig.is_watched` (lines 55-65): the emoji is watched
iff it equals (by `PartialEmoji.__eq__`) some emoji of `watched_emojis`
extended with the override extra emojis for the source channel. -/
def is_watched (cfg : StarboardChannelConfig) (emoji : PartialEmoji)
    (channel_id : Nat) : Bool :=
  let watched := cfg.watched_emojis ++
    (match dictFind cfg.channel_overrides channel_id with
     | some ov => ov.extra_emojis.getD []
     | none => [])
  watched.any (fun w => emojiEq w emoji)

/-- Python truthiness-based `x or y` on an optional integer: `None` and `0`
both fall through to `y`. -/
def pyOrNat (x : Option Nat) (y : Nat) : Nat :=
  match x with
  | some n => if n = 0 then y else n
  | none => y

/-- Model of `StarboardChannelConfig.relevant_required_reactions` (lines 67-70):
the override threshold when the source channel has an override whose
`required_reactions` is truthy, else the config default. -/
def relevant_required_reactions (cfg : StarboardChannelConfig)
    (channel_id : Nat) : Nat :=
  match dictFind cfg.channel_overrides channel_id with
  | some ov => pyOrNat ov.required_reactions cfg.required_reactions
  | none => cfg.required_reactions

/-- A reaction snapshot: insertion-ordered mapping from emoji to the list
of reacting users (modelled by their ids). -/
abbrev ReactionMap := List (PartialEmoji × List Nat)

/-- The reaction map built in `on_raw_reaction_update` (lines 631-638):
every reaction of the message, each user list filtered by
`allow_self_star or user.id != author.id`. -/
def buildReactionMap (reactions : ReactionMap) (allow_self_star : Bool)
    (author_id : Nat) : ReactionMap :=
  reactions.map (fun (p : PartialEmoji × List Nat) =>
    (p.1, p.2.filter (fun u => allow_self_star || u != author_id)))

/-- The `relevant_reaction_map` of `update_starboard_message`
(lines 655-659): the entries whose emoji is watched by the config. -/
def relevantReactionMap (reaction_map : ReactionMap)
    (cfg : StarboardChannelConfig) (channel_id : Nat) : ReactionMap :=
  reaction_map.filter (fun p => is_watched cfg p.1 channel_id)

/-- The `unique_reaction_count` expression (line 660): the size of the set of all users
appearing in some user list of the map. -/
def uniqueReactionCount (m : ReactionMap) : Nat :=
  (m.foldr (fun (p : PartialEmoji × List Nat) (acc : Finset Nat) =>
    p.2.toFinset ∪ acc) ∅).card

/-- The loop body of `get_top_emoji` (lines 146-148): keep the entry if
its user list strictly exceeds the best count so far. -/
def topFoldStep (best : PartialEmoji × Nat) (p : PartialEmoji × List Nat) :
    PartialEmoji × Nat :=
  if p.2.length > best.2 then (p.1, p.2.length) else best

/-- Model of `get_top_emoji` (lines 144-149).  The Python raises `StopIteration` on
an empty mapping (`next(iter(...))`); that failure case is modelled by
`none`.  Otherwise it folds over the entries starting from
`(first key, 0)`. -/
def get_top_emoji (reactions_map : ReactionMap) : Option PartialEmoji :=
  match reactions_map with
  | [] => none
  | (e0, _) :: _ => some (reactions_map.foldl topFoldStep (e0, 0)).1

/-! ## The mirror-record store (`starred_messages` SQLite table) -/

/-- A stored row of `starred_messages`; by the schema of `setup_db`
(lines 546-555) every column is `NOT NULL`. -/
structure StarredRow where
  original_id : Nat
  starboard_message_id : Nat
  starboard_channel_id : Nat
  star_count : Nat
  deriving DecidableEq, Repr

abbrev StarredDb := List StarredRow

inductive SqlError where
  | notNullViolation
  | uniqueViolation
  deriving DecidableEq, Repr

/-- The column values supplied by an `INSERT` into `starred_messages`;
`none` stands for SQL `NULL`, which is what a column omitted from the
statement receives (the schema declares no defaults). -/
structure StarredInsertValues where
  original_id : Option Nat
  starboard_message_id : Option Nat
  starboard_channel_id : Option Nat
  star_count : Option Nat
  deriving DecidableEq, Repr

/-- SQLite semantics of an `INSERT` under the `setup_db` schema: every
column is `NOT NULL`, `original_id` is the primary key and
`starboard_message_id` is `UNIQUE`. -/
def insertStarred (db : StarredDb) (v : StarredInsertValues) :
    Except SqlError StarredDb :=
  match v.original_id, v.starboard_message_id, v.starboard_channel_id, v.star_count with
  | some o, some m, some c, some s =>
    if db.any (fun r => r.original_id == o) || db.any (fun r => r.starboard_message_id == m)
    then .error .uniqueViolation
    else .ok (db ++ [⟨o, m, c, s⟩])
  | _, _, _, _ => .error .notNullViolation

/-- The `SELECT starboard_message_id, star_count ... WHERE original_id = ?`
of `update_starboard_message` (lines 662-665). -/
def selectStarred (db : StarredDb) (original_id : Nat) : Option (Nat × Nat) :=
  (db.find? (fun r => r.original_id == original_id)).map
    (fun r => (r.starboard_message_id, r.star_count))

/-- The `UPDATE starred_messages SET star_count = ? WHERE original_id = ?`
of `update_starboard_message_button` (lines 754-758). -/
def updateStarCount (db : StarredDb) (original_id new_count : Nat) : StarredDb :=
  db.map (fun r => if r.original_id == original_id then
    { r with star_count := new_count } else r)

/-- Model of `Breadboard.delete_from_db` (lines 584-589): a `DELETE ... WHERE`
statement, which succeeds (as a no-op) when the row is absent. -/
def delete_from_db (db : StarredDb) (message_id : Nat) : StarredDb :=
  db.filter (fun r => r.original_id != message_id)

/-! ## External webhook collaborator outcomes -/

/-- Outcome of `fetch_starboard_webhook` followed by `webhook.send`. -/
inductive WebhookSendOutcome where
  | ok (message_id : Nat)
  | forbidden
  deriving DecidableEq, Repr

/-- Outcome of `fetch_starboard_webhook` followed by
`webhook.edit_message`. -/
inductive WebhookEditOutcome where
  | ok
  | notFound
  | httpError
  deriving DecidableEq, Repr

/-- Outcome of `fetch_starboard_webhook` followed by
`webhook.delete_message`; `delete_message` raises `NotFound` when the
mirror message is already gone. -/
inductive WebhookDeleteOutcome where
  | ok
  | notFound
  | httpError
  deriving DecidableEq, Repr

/-- Exceptions surfaced by the reconciliation methods. -/
inductive PyError where
  | integrityError (e : SqlError)
  | notFound
  | forbidden
  | httpError
  deriving DecidableEq, Repr

deriving instance DecidableEq for Except

/-! ## Reconciliation -/

/-- The intent decided by `update_starboard_message` for one config. -/
inductive StarboardIntent where
  | create
  | updateButton (starboard_message_id : Nat)
  | deleteMessage (starboard_message_id : Nat)
  | noop
  deriving DecidableEq, Repr

/-- The branch structure of `update_starboard_message` (lines 667-689):
given the unique reaction count, the effective threshold and the selected
row, pick the intent.  Mirrors the `if / elif / else` chain of the
source. -/
def update_starboard_decision (unique_reaction_count required : Nat)
    (sql_response : Option (Nat × Nat)) : StarboardIntent :=
  if required ≤ unique_reaction_count then
    match sql_response with
    | none => .create
    | some (starboard_message_id, star_count) =>
      if unique_reaction_count ≠ star_count then .updateButton starboard_message_id
      else .noop
  else
    match sql_response with
    | some (starboard_message_id, _) => .deleteMessage starboard_message_id
    | none => .noop

/-- Result of `create_starboard_message`: the store afterwards, the mirror
messages actually published by the call, and the call result. -/
structure CreateOutcome where
  db : StarredDb
  sent_mirror_ids : List Nat
  result : Except PyError Unit
  deriving DecidableEq, Repr

/-- Model of `Breadboard.create_starboard_message` (lines 691-743): fetch the
webhook, publish the mirror via `webhook.send`, then run
`INSERT INTO starred_messages (original_id, starboard_message_id,
star_count) VALUES (?, ?, ?)` — the statement names only those three
columns, so `starboard_channel_id` receives `NULL`.  An insert error
propagates after the mirror message has already been sent. -/
def create_starboard_message (db : StarredDb) (message_id : Nat)
    (relevant_reaction_map : ReactionMap) (send : WebhookSendOutcome) :
    CreateOutcome :=
  match send with
  | .forbidden => ⟨db, [], .error .forbidden⟩
  | .ok webhook_msg_id =>
    let unique_reaction_count := uniqueReactionCount relevant_reaction_map
    match insertStarred db
      ⟨some message_id, some webhook_msg_id, none, some unique_reaction_count⟩ with
    | .ok db2 => ⟨db2, [webhook_msg_id], .ok ()⟩
    | .error e => ⟨db, [webhook_msg_id], .error (.integrityError e)⟩

/-- Result of the update and delete intents: the store afterwards and the
call result. -/
structure MutateOutcome where
  db : StarredDb
  result : Except PyError Unit
  deriving DecidableEq, Repr

/-- Model of `Breadboard.update_starboard_message_button` (lines 745-772): first the
`UPDATE ... SET star_count` is executed and committed, then the webhook is
fetched and the mirror message edited; a `NotFound` from the edit deletes
the local record and re-raises, any other failure propagates with the
count already committed. -/
def update_starboard_message_button (db : StarredDb) (message_id : Nat)
    (relevant_reaction_map : ReactionMap) (starboard_message_id : Nat)
    (edit : WebhookEditOutcome) : MutateOutcome :=
  let unique_reaction_count := uniqueReactionCount relevant_reaction_map
  let db2 := updateStarCount db message_id unique_reaction_count
  match edit with
  | .ok => ⟨db2, .ok ()⟩
  | .notFound => ⟨delete_from_db db2 message_id, .error .notFound⟩
  | .httpError => ⟨db2, .error .httpError⟩

/-- Model of `Breadboard.delete_starboard_message` (lines 774-782): first
`delete_from_db`, then fetch the webhook and `webhook.delete_message`;
there is no handler around the external delete, so its failures (including
`NotFound`) propagate after the local record is gone. -/
def delete_starboard_message (db : StarredDb) (message_id : Nat)
    (starboard_message_id : Nat) (del : WebhookDeleteOutcome) : MutateOutcome :=
  let db2 := delete_from_db db message_id
  match del with
  | .ok => ⟨db2, .ok ()⟩
  | .notFound => ⟨db2, .error .notFound⟩
  | .httpError => ⟨db2, .error .httpError⟩

/-- The webhook outcomes one call of `update_starboard_message` may need,
one per possible external action. -/
structure WebhookOutcomes where
  send : WebhookSendOutcome
  edit : WebhookEditOutcome
  del : WebhookDeleteOutcome
  deriving DecidableEq, Repr

/-- Result of one `update_starboard_message` call. -/
structure EventStepOutcome where
  db : StarredDb
  sent_mirror_ids : List Nat
  result : Except PyError Unit
  intent : StarboardIntent
  deriving DecidableEq, Repr

/-- Model of `Breadboard.update_starboard_message` (lines 648-689): restrict the
reaction map to the watched emojis, compute the unique reaction count,
select the stored row, then dispatch on the branch chain
(`update_starboard_decision`) to the per-intent method. -/
def update_starboard_message (db : StarredDb)
    (message_id message_channel_id : Nat) (reaction_map : ReactionMap)
    (channel_config : StarboardChannelConfig) (w : WebhookOutcomes) :
    EventStepOutcome :=
  let relevant_reaction_map := relevantReactionMap reaction_map channel_config message_channel_id
  let unique_reaction_count := uniqueReactionCount relevant_reaction_map
  let sql_response := selectStarred db message_id
  match update_starboard_decision unique_reaction_count
      (relevant_required_reactions channel_config message_channel_id) sql_response with
  | .create =>
    let c := create_starboard_message db message_id relevant_reaction_map w.send
    ⟨c.db, c.sent_mirror_ids, c.result, .create⟩
  | .updateButton sbid =>
    let u := update_starboard_message_button db message_id relevant_reaction_map sbid w.edit
    ⟨u.db, [], u.result, .updateButton sbid⟩
  | .deleteMessage sbid =>
    let d := delete_starboard_message db message_id sbid w.del
    ⟨d.db, [], d.result, .deleteMessage sbid⟩
  | .noop => ⟨db, [], .ok (), .noop⟩

/-! ## Per-event fan-out (`on_raw_reaction_update`) -/

/-- The exclusion-policy admission test of `on_raw_reaction_update`
(line 615): `(channel.id not in config.exclude) ^ config.exclude_is_include`. -/
def admitted_by_exclusion (cfg : StarboardChannelConfig) (channel_id : Nat) : Bool :=
  (!cfg.exclude.contains channel_id) ^^ cfg.exclude_is_include

/-- The `relevant_configs` selection of `on_raw_reaction_update`
(lines 601-616): the guild configs watching the reacted emoji for the
source channel, then filtered by the exclusion policy. -/
def relevant_configs_for (guild_configs : List StarboardChannelConfig)
    (emoji : PartialEmoji) (channel_id : Nat) : List StarboardChannelConfig :=
  (guild_configs.filter (fun c => is_watched c emoji channel_id)).filter
    (fun c => admitted_by_exclusion c channel_id)

/-- Result of the per-event fan-out loop. -/
structure FanoutOutcome where
  db : StarredDb
  attempted : List Nat
  sent_mirror_ids : List Nat
  result : Except PyError Unit
  deriving DecidableEq, Repr

/-- The fan-out loop of `on_raw_reaction_update` (lines 640-646): configs
are processed sequentially with no exception handling, so the first
config whose `update_starboard_message` raises stops the loop.
`attempted` records the channel ids of the configs the loop invoked, in
order; `w` supplies the webhook outcomes per starboard channel. -/
def process_relevant_configs (message_id message_channel_id : Nat)
    (reaction_map : ReactionMap) (w : Nat → WebhookOutcomes) :
    StarredDb → List StarboardChannelConfig → FanoutOutcome
  | db, [] => ⟨db, [], [], .ok ()⟩
  | db, cfg :: rest =>
    let r := update_starboard_message db message_id message_channel_id
      reaction_map cfg (w cfg.channel_id)
    match r.result with
    | .ok _ =>
      let f := process_relevant_configs message_id message_channel_id
        reaction_map w r.db rest
      ⟨f.db, cfg.channel_id :: f.attempted, r.sent_mirror_ids ++ f.sent_mirror_ids, f.result⟩
    | .error e => ⟨r.db, [cfg.channel_id], r.sent_mirror_ids, .error e⟩

/-! ## Configuration serialization (`GuildConfigs.load` / `GuildConfigs.dump`)

Serialized strings are modelled as `List Char`.  The decimal printing and
parsing of numbers (Python `str` of an `int` and `int` of a string) and the
emoji string forms (`str` of a `discord.PartialEmoji` and
`PartialEmoji.from_str`) belong to external collaborators; they are
modelled on the canonical decimal and emoji forms the dump side emits. -/

/-- The decimal digit character of `d` (for `d < 10`). -/
def digitChar (d : Nat) : Char := Char.ofNat (48 + d)

def isDigitChar (c : Char) : Bool := 48 ≤ c.toNat && c.toNat ≤ 57

/-- A character allowed in a custom emoji name (the `[A-Za-z0-9_]` class
of the custom-emoji pattern). -/
def isNameChar (c : Char) : Bool := c.isAlphanum || c == '_'

/-- Decimal digits of `n`, most significant first; the first argument is
structural fuel, sufficient whenever `n ≤ fuel`. -/
def natDigitsAux : Nat → Nat → List Nat
  | 0, n => [n % 10]
  | fuel + 1, n => if n < 10 then [n] else natDigitsAux fuel (n / 10) ++ [n % 10]

def natDigits (n : Nat) : List Nat := natDigitsAux n n

/-- Modelled from the spec: Python `str` of a non-negative `int` (an
external builtin, not part of `src/`), canonical decimal form. -/
def natToDigitChars (n : Nat) : List Char := (natDigits n).map digitChar

def charToDigit? (c : Char) : Option Nat :=
  if isDigitChar c then some (c.toNat - 48) else none

def digitCharsToNatAux : Nat → List Char → Option Nat
  | acc, [] => some acc
  | acc, c :: cs =>
    match charToDigit? c with
    | some d => digitCharsToNatAux (acc * 10 + d) cs
    | none => none

/-- Modelled from the spec: Python `int` of a string (an external builtin,
not part of `src/`), restricted to the canonical all-digit form produced
by `str`; `none` models the `ValueError` raised on anything else. -/
def digitCharsToNat? (cs : List Char) : Option Nat :=
  if cs.isEmpty then none else digitCharsToNatAux 0 cs

/-- Model of `discord.PartialEmoji.__str__`: the bare name for a unicode emoji,
`<a:name:id>` or `<:name:id>` for a custom emoji. -/
def emojiToStr : PartialEmoji → List Char
  | .unicode n => n.data
  | .custom a n i =>
    ['<'] ++ (if a then ['a'] else []) ++ [':'] ++ n.data ++ [':'] ++
      natToDigitChars i ++ ['>']

/-- Split a reversed interior `rev` at the last `:` of the interior: the
leading run of digit characters of `rev` is the (reversed) id, the rest
after a `:` the (reversed) name. -/
def parseInterior (animated : Bool) (rev : List Char) :
    Option (Bool × List Char × Nat) :=
  if (rev.drop (rev.takeWhile isDigitChar).length).head? = some ':' then
    if (rev.takeWhile isDigitChar).isEmpty then none
    else if (rev.drop (rev.takeWhile isDigitChar).length).tail.isEmpty then none
    else if (rev.drop (rev.takeWhile isDigitChar).length).tail.reverse.all isNameChar
    then
      (digitCharsToNat? (rev.takeWhile isDigitChar).reverse).map
        (fun i => (animated, (rev.drop (rev.takeWhile isDigitChar).length).tail.reverse, i))
    else none
  else none

/-- Body of the custom-emoji parse after the `<(a)?:` introducer: expect a
trailing `>`, then split the reversed interior. -/
def parseBody (animated : Bool) (r : List Char) :
    Option (Bool × List Char × Nat) :=
  if r.getLast? = some '>' then parseInterior animated r.dropLast.reverse
  else none

/-- Custom-emoji introducer: `<a:` (animated) or `<:`. -/
def parseAfterLt (rest : List Char) : Option (Bool × List Char × Nat) :=
  if rest.head? = some 'a' then
    if rest.tail.head? = some ':' then parseBody true rest.tail.tail else none
  else if rest.head? = some ':' then parseBody false rest.tail
  else none

/-- The custom-emoji pattern match of `PartialEmoji.from_str`, restricted
to the canonical `<(a)?:name:id>` forms `__str__` emits. -/
def parseCustom (cs : List Char) : Option (Bool × List Char × Nat) :=
  if cs.head? = some '<' then parseAfterLt cs.tail else none

/-- Modelled from the spec: `discord.PartialEmoji.from_str` (the external
emoji collaborator; §3 requires two representations of the same custom
emoji to compare equal): a string matching the custom pattern yields a
custom emoji, anything else a unicode emoji of that name. -/
def emojiFromStr (cs : List Char) : PartialEmoji :=
  match parseCustom cs with
  | some (a, n, i) => .custom a (String.mk n) i
  | none => .unicode (String.mk cs)

/-- Serialized form of `ChannelConfigOverrideDict` (lines 21-24). -/
structure ChannelConfigOverrideDict where
  override_for : Nat
  required_reactions : Option Nat
  extra_emojis : Option (List (List Char))
  deriving DecidableEq, Repr

/-- Serialized form of `ChannelConfigDict` (lines 34-41); the three fields
read through `channel.get(...)` in `load` are optional. -/
structure ChannelConfigDict where
  channel_id : Nat
  required_reactions : Nat
  watched_emojis : List (List Char)
  channel_overrides : Option (List ChannelConfigOverrideDict)
  exclude : Option (List Nat)
  exclude_is_include : Option Bool
  deriving DecidableEq, Repr

/-- The `GuildConfigs` mapping (line 73): per guild, an insertion-ordered mapping from
channel id to its starboard config. -/
abbrev GuildConfigs := List (Nat × List (Nat × StarboardChannelConfig))

/-- The override serialization inside `GuildConfigs.dump` (lines 108-115):
a falsy `extra_emojis` (both `None` and the empty list) dumps as `None`. -/
def dumpOverride (ov : ChannelConfigOverride) : ChannelConfigOverrideDict :=
  ⟨ov.override_for, ov.required_reactions,
   match ov.extra_emojis with
   | some es => if es.isEmpty then none else some (es.map emojiToStr)
   | none => none⟩

/-- The override deserialization inside `GuildConfigs.load` (lines 84-90):
a falsy serialized `extra_emojis` loads as `None`. -/
def loadOverride (d : ChannelConfigOverrideDict) : ChannelConfigOverride :=
  ⟨d.override_for, d.required_reactions,
   match d.extra_emojis with
   | some es => if es.isEmpty then none else some (es.map emojiFromStr)
   | none => none⟩

/-- One channel entry of `GuildConfigs.dump` (lines 104-118). -/
def dumpChannel (cfg : StarboardChannelConfig) : ChannelConfigDict :=
  ⟨cfg.channel_id, cfg.required_reactions, cfg.watched_emojis.map emojiToStr,
   some ((cfg.channel_overrides.map Prod.snd).map dumpOverride),
   some cfg.exclude, some cfg.exclude_is_include⟩

/-- One channel entry of `GuildConfigs.load` (lines 78-95), keyed by the
serialized `channel_id`, with `.get` defaults for the optional fields. -/
def loadChannel (d : ChannelConfigDict) : Nat × StarboardChannelConfig :=
  (d.channel_id,
   ⟨d.channel_id, d.required_reactions, d.watched_emojis.map emojiFromStr,
    (d.channel_overrides.getD []).map (fun o => (o.override_for, loadOverride o)),
    d.exclude.getD [], d.exclude_is_include.getD false⟩)

/-- Model of `GuildConfigs.dump` (lines 101-122): guild keys become decimal
strings. -/
def GuildConfigs.dump (g : GuildConfigs) : List (List Char × List ChannelConfigDict) :=
  g.map (fun p => (natToDigitChars p.1, (p.2.map Prod.snd).map dumpChannel))

/-- Model of `GuildConfigs.load` (lines 74-99): guild keys are parsed back with
`int`, whose failure (`none`) fails the whole load. -/
def GuildConfigs.load : List (List Char × List ChannelConfigDict) → Option GuildConfigs
  | [] => some []
  | p :: rest =>
    match digitCharsToNat? p.1, GuildConfigs.load rest with
    | some gid, some g => some ((gid, p.2.map loadChannel) :: g)
    | _, _ => none

/-- Well-formed emoji for the serialization round trip: a unicode emoji
does not begin with the custom-emoji introducer, a custom emoji has a
non-empty `[A-Za-z0-9_]` name. -/
def emojiWF : PartialEmoji → Bool
  | .unicode n => n.data.head? != some '<'
  | .custom _ n _ => !n.data.isEmpty && n.data.all isNameChar

/-- Well-formed override for the round trip: the extra-emoji list, when
present, is non-empty (the command surface never stores an empty list) and
its emojis are well-formed. -/
def overrideWF (ov : ChannelConfigOverride) : Bool :=
  match ov.extra_emojis with
  | some es => !es.isEmpty && es.all emojiWF
  | none => true

/-- Well-formed channel config for the round trip: watched emojis are
well-formed and each override sits under its own `override_for` key. -/
def configWF (cfg : StarboardChannelConfig) : Bool :=
  cfg.watched_emojis.all emojiWF &&
    cfg.channel_overrides.all (fun p => p.1 == p.2.override_for && overrideWF p.2)

/-- Well-formed guild configuration: each config sits under its own
`channel_id` key and is well-formed. -/
def guildConfigsWF (g : GuildConfigs) : Bool :=
  g.all (fun gp => gp.2.all (fun cp => cp.1 == cp.2.channel_id && configWF cp.2))

/-! ## Helper definitions for specifications -/

/-- The set of all users appearing in some user list of the map (the set
built by the comprehension on line 660). -/
def unionUsers (m : ReactionMap) : Finset Nat :=
  m.foldr (fun (p : PartialEmoji × List Nat) (acc : Finset Nat) =>
    p.2.toFinset ∪ acc) ∅

/-- The largest user-list length of the map. -/
def maxUserCount (m : ReactionMap) : Nat :=
  (m.map (fun p => p.2.length)).foldr max 0

/-! ## Helper lemmas -/

theorem uniqueReactionCount_eq_card (m : ReactionMap) :
    uniqueReactionCount m = (unionUsers m).card := rfl

theorem filter_ne_toFinset (l : List Nat) (a : Nat) :
    (l.filter (fun u => u != a)).toFinset = l.toFinset \ {a} := by
  ext u
  simp [List.mem_filter, bne_iff_ne]

theorem unionUsers_relevant_noSelf (s : ReactionMap)
    (cfg : StarboardChannelConfig) (ch a : Nat) :
    unionUsers (relevantReactionMap (buildReactionMap s false a) cfg ch) =
      (s.filter (fun p => is_watched cfg p.1 ch)).foldr
        (fun p acc => (p.2.toFinset \ {a}) ∪ acc) ∅ := by
  induction s with
  | nil => rfl
  | cons p rest ih =>
    by_cases hw : is_watched cfg p.1 ch
    · simp only [buildReactionMap, relevantReactionMap, unionUsers, List.map_cons,
        List.filter_cons, Bool.false_or] at ih ⊢
      simp [hw, ih, filter_ne_toFinset, Finset.filter_ne', Finset.erase_eq]
    · simp only [buildReactionMap, relevantReactionMap, unionUsers, List.map_cons,
        List.filter_cons, Bool.false_or] at ih ⊢
      simp [hw, ih]

/-! ## Sample values used by witnesses -/

/-- A sample unicode emoji. -/
def starEmoji : PartialEmoji := .unicode "s"

/-- A sample watched-star config: starboard channel 10, threshold 3, no
overrides, empty exclusion list in deny mode. -/
def cfgA : StarboardChannelConfig := ⟨10, 3, [starEmoji], [], [], false⟩

/-- A config with an override: starboard channel 20, default threshold 3,
source channel 5 overridden to require a single reaction. -/
def cfgB : StarboardChannelConfig :=
  ⟨20, 3, [starEmoji], [(5, ⟨5, some 1, none⟩)], [], false⟩

/-- Webhook outcomes where every external action succeeds; the mirror
message sent by a create receives id 900. -/
def wOk : WebhookOutcomes := ⟨.ok 900, .ok, .ok⟩

/-- Config used in the fan-out counterexample: starboard channel 30,
threshold 1. -/
def cfgC1 : StarboardChannelConfig := ⟨30, 1, [starEmoji], [], [], false⟩

/-- Second config of the fan-out counterexample: starboard channel 40,
threshold 1. -/
def cfgC2 : StarboardChannelConfig := ⟨40, 1, [starEmoji], [], [], false⟩

/-- Webhook outcomes where the starboard of channel 30 reports its mirror
message missing on edit, and everything else succeeds. -/
def wC5 : Nat → WebhookOutcomes :=
  fun ch => if ch = 30 then ⟨.ok 900, .notFound, .ok⟩ else ⟨.ok 901, .ok, .ok⟩

/-- A sample custom emoji. -/
def customEmoji : PartialEmoji := .custom true "ab" 123

/-- A config whose override carries an empty `extra_emojis` list. -/
def cfgBad : StarboardChannelConfig :=
  ⟨10, 3, [starEmoji], [(5, ⟨5, none, some []⟩)], [], false⟩

def gBad : GuildConfigs := [(1, [(10, cfgBad)])]

/-- A config whose override sits under key 4 although its `override_for`
is 5. -/
def cfgBadKey : StarboardChannelConfig :=
  ⟨10, 3, [starEmoji], [(4, ⟨5, some 2, none⟩)], [], false⟩

def gBadKey : GuildConfigs := [(1, [(10, cfgBadKey)])]

/-- A guild map storing a config of channel 10 under key 11. -/
def gBadChan : GuildConfigs := [(1, [(11, cfgA)])]

/-- A well-formed config exercising overrides and the inverted exclusion
mode. -/
def cfgGood : StarboardChannelConfig :=
  ⟨10, 3, [starEmoji, customEmoji],
   [(5, ⟨5, some 2, some [customEmoji]⟩), (6, ⟨6, none, none⟩)], [7], true⟩

def gGood : GuildConfigs := [(12, [(10, cfgGood)])]

/-! ## Claim theorems -/

/-- C7: the aggregated `uniqueCount` is the size of the union of the user
sets of the watched emojis, the message author being removed from every
user set first when self-starring is disallowed; in particular a message
whose only reaction on a watched emoji is from its own author yields a
count of 0. -/
theorem C7_unique_count_union (snapshot : ReactionMap)
    (cfg : StarboardChannelConfig) (ch author : Nat) :
    (uniqueReactionCount (relevantReactionMap (buildReactionMap snapshot false author) cfg ch) =
      ((snapshot.filter (fun p => is_watched cfg p.1 ch)).foldr
        (fun (p : PartialEmoji × List Nat) (acc : Finset Nat) =>
          (p.2.toFinset \ {author}) ∪ acc) ∅).card) ∧
    (∀ e, is_watched cfg e ch = true →
      uniqueReactionCount
        (relevantReactionMap (buildReactionMap [(e, [author])] false author) cfg ch) = 0) := by
  constructor
  · rw [uniqueReactionCount_eq_card, unionUsers_relevant_noSelf]
  · intro e he
    simp [uniqueReactionCount, relevantReactionMap, buildReactionMap, he]

/-- Witness for C7 at a concrete config and snapshot. -/
theorem C7_unique_count_union_witness :
    is_watched cfgA starEmoji 5 = true ∧
    uniqueReactionCount
      (relevantReactionMap (buildReactionMap [(starEmoji, [9])] false 9) cfgA 5) = 0 :=
  ⟨by decide, (C7_unique_count_union [(starEmoji, [9])] cfgA 5 9).2 starEmoji (by decide)⟩

/-- C8: a config is admitted by the exclusion policy iff
`(sourceChannel not in exclude) XOR excludeIsInclude`; a config failing the
policy is never among the relevant configs of the event, so it reaches
neither aggregation nor any publish intent. -/
theorem C8_exclusion_policy (gcs : List StarboardChannelConfig)
    (cfg : StarboardChannelConfig) (emoji : PartialEmoji) (ch : Nat) :
    (admitted_by_exclusion cfg ch = true ↔
      Xor' (ch ∉ cfg.exclude) (cfg.exclude_is_include = true)) ∧
    (cfg ∈ relevant_configs_for gcs emoji ch ↔
      cfg ∈ gcs ∧ is_watched cfg emoji ch = true ∧ admitted_by_exclusion cfg ch = true) ∧
    (cfg.exclude_is_include = false → ch ∈ cfg.exclude →
      cfg ∉ relevant_configs_for gcs emoji ch) ∧
    (cfg.exclude_is_include = true → ch ∉ cfg.exclude →
      cfg ∉ relevant_configs_for gcs emoji ch) := by
  have hadm : admitted_by_exclusion cfg ch = true ↔
      Xor' (ch ∉ cfg.exclude) (cfg.exclude_is_include = true) := by
    by_cases hm : ch ∈ cfg.exclude <;> cases hii : cfg.exclude_is_include <;>
      simp [admitted_by_exclusion, List.elem_iff, hm, hii, Xor']
  have hmem : cfg ∈ relevant_configs_for gcs emoji ch ↔
      cfg ∈ gcs ∧ is_watched cfg emoji ch = true ∧ admitted_by_exclusion cfg ch = true := by
    simp only [relevant_configs_for, List.mem_filter]
    tauto
  refine ⟨hadm, hmem, ?_, ?_⟩
  · intro h1 h2 hc
    rcases hmem.mp hc with ⟨-, -, ha⟩
    rcases hadm.mp ha with ⟨hn, -⟩ | ⟨hi, -⟩
    · exact hn h2
    · simp [h1] at hi
  · intro h1 h2 hc
    rcases hmem.mp hc with ⟨-, -, ha⟩
    rcases hadm.mp ha with ⟨-, hn⟩ | ⟨-, hi⟩
    · simp [h1] at hn
    · exact hi h2

/-- Witness for C8: a deny-listed channel is not admitted and its config
is not relevant. -/
theorem C8_exclusion_policy_witness :
    ({ cfgA with exclude := [5] } : StarboardChannelConfig).exclude_is_include = false ∧
    5 ∈ ({ cfgA with exclude := [5] } : StarboardChannelConfig).exclude ∧
    { cfgA with exclude := [5] } ∉
      relevant_configs_for [{ cfgA with exclude := [5] }] starEmoji 5 :=
  ⟨by decide, by decide,
    (C8_exclusion_policy [{ cfgA with exclude := [5] }]
      { cfgA with exclude := [5] } starEmoji 5).2.2.1 (by decide) (by decide)⟩

/-- The intent of `update_starboard_message` is the branch chain applied
to the aggregated count, the effective threshold and the selected row. -/
theorem update_starboard_message_intent (db : StarredDb)
    (message_id message_channel_id : Nat) (reaction_map : ReactionMap)
    (cfg : StarboardChannelConfig) (w : WebhookOutcomes) :
    (update_starboard_message db message_id message_channel_id reaction_map cfg w).intent =
      update_starboard_decision
        (uniqueReactionCount (relevantReactionMap reaction_map cfg message_channel_id))
        (relevant_required_reactions cfg message_channel_id)
        (selectStarred db message_id) := by
  unfold update_starboard_message
  cases h : update_starboard_decision
      (uniqueReactionCount (relevantReactionMap reaction_map cfg message_channel_id))
      (relevant_required_reactions cfg message_channel_id)
      (selectStarred db message_id) <;> simp [h]

/-- C1: the effective threshold is the override threshold when present and
set, else the config default; the reconciliation decision follows the
five-case table on the aggregated count, the effective threshold and the
stored record; the boundaries sit at count = threshold (create/keep) and
count = threshold - 1 (delete/no-create). -/
theorem C1_reconciliation_decision (db : StarredDb)
    (message_id message_channel_id : Nat) (reaction_map : ReactionMap)
    (cfg : StarboardChannelConfig) (w : WebhookOutcomes) :
    ((∀ ov n, dictFind cfg.channel_overrides message_channel_id = some ov →
        ov.required_reactions = some n → 0 < n →
        relevant_required_reactions cfg message_channel_id = n) ∧
     (dictFind cfg.channel_overrides message_channel_id = none →
        relevant_required_reactions cfg message_channel_id = cfg.required_reactions) ∧
     (∀ ov, dictFind cfg.channel_overrides message_channel_id = some ov →
        ov.required_reactions = none →
        relevant_required_reactions cfg message_channel_id = cfg.required_reactions)) ∧
    ((relevant_required_reactions cfg message_channel_id ≤
        uniqueReactionCount (relevantReactionMap reaction_map cfg message_channel_id) →
      selectStarred db message_id = none →
      (update_starboard_message db message_id message_channel_id reaction_map cfg w).intent =
        .create) ∧
     (∀ sbid sc, relevant_required_reactions cfg message_channel_id ≤
        uniqueReactionCount (relevantReactionMap reaction_map cfg message_channel_id) →
      selectStarred db message_id = some (sbid, sc) →
      uniqueReactionCount (relevantReactionMap reaction_map cfg message_channel_id) ≠ sc →
      (update_starboard_message db message_id message_channel_id reaction_map cfg w).intent =
        .updateButton sbid) ∧
     (∀ sbid, relevant_required_reactions cfg message_channel_id ≤
        uniqueReactionCount (relevantReactionMap reaction_map cfg message_channel_id) →
      selectStarred db message_id =
        some (sbid, uniqueReactionCount (relevantReactionMap reaction_map cfg message_channel_id)) →
      (update_starboard_message db message_id message_channel_id reaction_map cfg w).intent =
        .noop) ∧
     (∀ sbid sc, uniqueReactionCount (relevantReactionMap reaction_map cfg message_channel_id) <
        relevant_required_reactions cfg message_channel_id →
      selectStarred db message_id = some (sbid, sc) →
      (update_starboard_message db message_id message_channel_id reaction_map cfg w).intent =
        .deleteMessage sbid) ∧
     (uniqueReactionCount (relevantReactionMap reaction_map cfg message_channel_id) <
        relevant_required_reactions cfg message_channel_id →
      selectStarred db message_id = none →
      (update_starboard_message db message_id message_channel_id reaction_map cfg w).intent =
        .noop)) ∧
    (0 < relevant_required_reactions cfg message_channel_id →
      uniqueReactionCount (relevantReactionMap reaction_map cfg message_channel_id) =
        relevant_required_reactions cfg message_channel_id - 1 →
      ((selectStarred db message_id = none →
        (update_starboard_message db message_id message_channel_id reaction_map cfg w).intent =
          .noop) ∧
       (∀ sbid sc, selectStarred db message_id = some (sbid, sc) →
        (update_starboard_message db message_id message_channel_id reaction_map cfg w).intent =
          .deleteMessage sbid))) := by
  have hint := update_starboard_message_intent db message_id message_channel_id reaction_map cfg w
  refine ⟨⟨?_, ?_, ?_⟩, ⟨?_, ?_, ?_, ?_, ?_⟩, ?_⟩
  · intro ov n hov hn hpos
    simp [relevant_required_reactions, hov, pyOrNat, hn, Nat.pos_iff_ne_zero.mp hpos]
  · intro hov
    simp [relevant_required_reactions, hov]
  · intro ov hov hn
    simp [relevant_required_reactions, hov, pyOrNat, hn]
  · intro hle hsql
    rw [hint, hsql]
    simp [update_starboard_decision, hle]
  · intro sbid sc hle hsql hne
    rw [hint, hsql]
    simp [update_starboard_decision, hle, hne]
  · intro sbid hle hsql
    rw [hint, hsql]
    simp [update_starboard_decision, hle]
  · intro sbid sc hlt hsql
    rw [hint, hsql]
    simp [update_starboard_decision, Nat.not_le.mpr hlt]
  · intro hlt hsql
    rw [hint, hsql]
    simp [update_starboard_decision, Nat.not_le.mpr hlt]
  · intro hpos hcnt
    have hlt : uniqueReactionCount (relevantReactionMap reaction_map cfg message_channel_id) <
        relevant_required_reactions cfg message_channel_id := by omega
    constructor
    · intro hsql
      rw [hint, hsql]
      simp [update_starboard_decision, Nat.not_le.mpr hlt]
    · intro sbid sc hsql
      rw [hint, hsql]
      simp [update_starboard_decision, Nat.not_le.mpr hlt]

/-- Witness for C1: a per-channel override of 1 applies on its channel,
the default 3 elsewhere; a first crossing creates, and one reaction below
the threshold deletes a stored record. -/
theorem C1_reconciliation_decision_witness :
    relevant_required_reactions cfgB 5 = 1 ∧
    relevant_required_reactions cfgB 6 = 3 ∧
    (update_starboard_message [] 100 5 [(starEmoji, [1])] cfgB wOk).intent =
      .create ∧
    (update_starboard_message [⟨100, 50, 10, 2⟩] 100 6 [(starEmoji, [1, 2])] cfgB wOk).intent =
      .deleteMessage 50 :=
  ⟨(C1_reconciliation_decision [] 100 5 [(starEmoji, [1])] cfgB wOk).1.1
      ⟨5, some 1, none⟩ 1 (by decide) (by decide) (by decide),
   (C1_reconciliation_decision [] 100 6 [(starEmoji, [1])] cfgB wOk).1.2.1 (by decide),
   (C1_reconciliation_decision [] 100 5 [(starEmoji, [1])] cfgB wOk).2.1.1
      (by decide) (by decide),
   ((C1_reconciliation_decision [⟨100, 50, 10, 2⟩] 100 6 [(starEmoji, [1, 2])] cfgB wOk).2.2
      (by decide) (by decide)).2 50 2 (by decide)⟩

/-- Updating the star count leaves the row in place with the new count. -/
theorem selectStarred_updateStarCount (db : StarredDb) (orig c : Nat) :
    selectStarred (updateStarCount db orig c) orig =
      (selectStarred db orig).map (fun p => (p.1, c)) := by
  induction db with
  | nil => rfl
  | cons r rest ih =>
    by_cases h : r.original_id = orig
    · simp [updateStarCount, selectStarred, h]
    · have hb : (r.original_id == orig) = false := by simpa using h
      simp only [updateStarCount, selectStarred, List.map_cons, List.find?_cons, hb] at ih ⊢
      simpa [hb] using ih

/-- After `delete_from_db` no row for the message remains. -/
theorem selectStarred_delete_from_db (db : StarredDb) (orig : Nat) :
    selectStarred (delete_from_db db orig) orig = none := by
  induction db with
  | nil => rfl
  | cons r rest ih =>
    by_cases h : r.original_id = orig
    · simp only [delete_from_db] at ih ⊢
      simp [h, ih]
    · have hb : (r.original_id == orig) = false := by simpa using h
      simp only [delete_from_db] at ih ⊢
      simp [selectStarred, hb, ih]

/-- The store-level delete is idempotent. -/
theorem delete_from_db_idem (db : StarredDb) (orig : Nat) :
    delete_from_db (delete_from_db db orig) orig = delete_from_db db orig := by
  simp [delete_from_db, List.filter_filter]

/-- C2 (code bug): the `INSERT` of `create_starboard_message` names only
`original_id`, `starboard_message_id` and `star_count`, so the declared
`starboard_channel_id INTEGER NOT NULL` column receives `NULL` and the
insert always fails with a NOT NULL violation — after the mirror message
has already been published.  No record is ever stored by a create. -/
theorem C2_create_insert_violates_schema (db : StarredDb) (message_id : Nat)
    (relevant_reaction_map : ReactionMap) (mirror_id : Nat) :
    (create_starboard_message db message_id relevant_reaction_map (.ok mirror_id)).result =
      .error (.integrityError .notNullViolation) ∧
    (create_starboard_message db message_id relevant_reaction_map (.ok mirror_id)).db = db ∧
    (create_starboard_message db message_id relevant_reaction_map (.ok mirror_id)).sent_mirror_ids =
      [mirror_id] := by
  simp [create_starboard_message, insertStarred]

/-- C3 (code bug): because the create path never manages to store a
record, processing the same event twice with unchanged reaction state
decides create both times and publishes two mirror messages. -/
theorem C3_double_event_double_create :
    (update_starboard_message [] 100 5 [(starEmoji, [1])] cfgB wOk).intent = .create ∧
    (update_starboard_message [] 100 5 [(starEmoji, [1])] cfgB wOk).db = [] ∧
    (update_starboard_message
        (update_starboard_message [] 100 5 [(starEmoji, [1])] cfgB wOk).db
        100 5 [(starEmoji, [1])] cfgB wOk).intent = .create ∧
    ((update_starboard_message [] 100 5 [(starEmoji, [1])] cfgB wOk).sent_mirror_ids ++
      (update_starboard_message
        (update_starboard_message [] 100 5 [(starEmoji, [1])] cfgB wOk).db
        100 5 [(starEmoji, [1])] cfgB wOk).sent_mirror_ids).length = 2 := by
  decide

/-- C4 counterexample: the star count is committed before the external
edit, so after a failed edit the stored count has changed from 2 to 3. -/
theorem C4_counterexample :
    (update_starboard_message_button [⟨100, 200, 10, 2⟩] 100
        [(starEmoji, [1, 2, 3])] 200 .httpError).result = .error .httpError ∧
    selectStarred (update_starboard_message_button [⟨100, 200, 10, 2⟩] 100
        [(starEmoji, [1, 2, 3])] 200 .httpError).db 100 = some (200, 3) ∧
    selectStarred [(⟨100, 200, 10, 2⟩ : StarredRow)] 100 = some (200, 2) := by
  decide

/-- C4 (amended): the update intent commits the new star count to the
store first and edits the mirror message after; a failed edit therefore
leaves the NEW count stored (or, when the edit reports the mirror missing,
the record deleted), never the previous count. -/
theorem C4_update_commits_before_edit (db : StarredDb) (message_id : Nat)
    (m : ReactionMap) (sbid : Nat) :
    ((update_starboard_message_button db message_id m sbid .ok).db =
        updateStarCount db message_id (uniqueReactionCount m) ∧
     (update_starboard_message_button db message_id m sbid .ok).result = .ok ()) ∧
    ((update_starboard_message_button db message_id m sbid .httpError).result =
        .error .httpError ∧
     selectStarred (update_starboard_message_button db message_id m sbid .httpError).db
        message_id =
       (selectStarred db message_id).map (fun p => (p.1, uniqueReactionCount m))) ∧
    ((update_starboard_message_button db message_id m sbid .notFound).result =
        .error .notFound ∧
     selectStarred (update_starboard_message_button db message_id m sbid .notFound).db
        message_id = none) := by
  refine ⟨⟨rfl, rfl⟩, ⟨rfl, ?_⟩, ⟨rfl, ?_⟩⟩
  · simpa [update_starboard_message_button] using
      selectStarred_updateStarCount db message_id (uniqueReactionCount m)
  · simpa [update_starboard_message_button] using
      selectStarred_delete_from_db (updateStarCount db message_id (uniqueReactionCount m))
        message_id

/-- C5 counterexample: of two relevant configs, the first raises
`NotFound` from its update intent; the loop stops and the second config
(starboard channel 40) is never processed. -/
theorem C5_counterexample :
    (process_relevant_configs 100 5 [(starEmoji, [1, 2])] wC5
        [⟨100, 300, 10, 1⟩] [cfgC1, cfgC2]).attempted = [30] ∧
    (40 ∉ (process_relevant_configs 100 5 [(starEmoji, [1, 2])] wC5
        [⟨100, 300, 10, 1⟩] [cfgC1, cfgC2]).attempted) ∧
    (process_relevant_configs 100 5 [(starEmoji, [1, 2])] wC5
        [⟨100, 300, 10, 1⟩] [cfgC1, cfgC2]).result = .error .notFound := by
  decide

/-- C5 (amended): the fan-out loop has no per-config error isolation —
the first config whose intent raises stops the loop with that error and
the remaining configs are not processed. -/
theorem C5_fanout_stops_at_first_failure (message_id ch : Nat) (m : ReactionMap)
    (w : Nat → WebhookOutcomes) (db : StarredDb) (cfg : StarboardChannelConfig)
    (rest : List StarboardChannelConfig) (e : PyError)
    (h : (update_starboard_message db message_id ch m cfg (w cfg.channel_id)).result =
      .error e) :
    process_relevant_configs message_id ch m w db (cfg :: rest) =
      ⟨(update_starboard_message db message_id ch m cfg (w cfg.channel_id)).db,
       [cfg.channel_id],
       (update_starboard_message db message_id ch m cfg (w cfg.channel_id)).sent_mirror_ids,
       .error e⟩ := by
  simp [process_relevant_configs, h]

/-- Witness for the amended C5 at the counterexample scenario. -/
theorem C5_fanout_stops_at_first_failure_witness :
    process_relevant_configs 100 5 [(starEmoji, [1, 2])] wC5
        [⟨100, 300, 10, 1⟩] [cfgC1, cfgC2] = ⟨[], [30], [], .error .notFound⟩ :=
  (C5_fanout_stops_at_first_failure 100 5 [(starEmoji, [1, 2])] wC5
      [⟨100, 300, 10, 1⟩] cfgC1 [cfgC2] .notFound (by decide)).trans (by decide)

/-- C6 counterexample: an already-missing upstream mirror makes the delete
intent raise `NotFound` instead of being tolerated as success (although
the local record is already removed at that point). -/
theorem C6_counterexample :
    (delete_starboard_message [⟨100, 300, 10, 5⟩] 100 300 .notFound).result =
      .error .notFound ∧
    (delete_starboard_message [⟨100, 300, 10, 5⟩] 100 300 .notFound).db = [] := by
  decide

/-- C6 (amended): the delete intent removes the local record first, so
afterwards no record exists regardless of the upstream outcome, and the
store-level delete is idempotent; but a not-found response from the
external deletion is not tolerated — it propagates as a failure. -/
theorem C6_delete_removes_local_record (db : StarredDb) (message_id sbid : Nat)
    (del : WebhookDeleteOutcome) :
    selectStarred (delete_starboard_message db message_id sbid del).db message_id = none ∧
    (delete_starboard_message db message_id sbid del).db = delete_from_db db message_id ∧
    delete_from_db (delete_from_db db message_id) message_id =
      delete_from_db db message_id ∧
    (delete_starboard_message db message_id sbid .notFound).result = .error .notFound := by
  refine ⟨?_, ?_, delete_from_db_idem db message_id, rfl⟩
  · cases del <;>
      simpa [delete_starboard_message] using selectStarred_delete_from_db db message_id
  · cases del <;> rfl

/-- A fold whose accumulator already carries the maximal count never
changes. -/
theorem topFold_const (l : List (PartialEmoji × List Nat)) (x : PartialEmoji)
    (M : Nat) (hb : ∀ p ∈ l, p.2.length ≤ M) :
    l.foldl topFoldStep (x, M) = (x, M) := by
  induction l with
  | nil => rfl
  | cons p rest ih =>
    have hp : ¬p.2.length > M := by
      have := hb p (List.mem_cons_self p rest)
      omega
    simp only [List.foldl_cons, topFoldStep, hp, if_false]
    exact ih (fun q hq => hb q (List.mem_cons_of_mem p hq))

/-- Every user-list length of the map is bounded by `maxUserCount`. -/
theorem length_le_maxUserCount (m : ReactionMap) (p : PartialEmoji × List Nat)
    (hp : p ∈ m) : p.2.length ≤ maxUserCount m := by
  induction m with
  | nil => cases hp
  | cons q rest ih =>
    have hcons : maxUserCount (q :: rest) = max q.2.length (maxUserCount rest) := rfl
    rcases List.mem_cons.mp hp with hp | hp
    · rw [hp, hcons]
      exact le_max_left _ _
    · rw [hcons]
      exact le_trans (ih hp) (le_max_right _ _)

/-- A non-zero `maxUserCount` is attained by some entry. -/
theorem maxUserCount_attained (m : ReactionMap) (h : maxUserCount m ≠ 0) :
    ∃ p ∈ m, p.2.length = maxUserCount m := by
  induction m with
  | nil => simp [maxUserCount] at h
  | cons q rest ih =>
    have hcons : maxUserCount (q :: rest) = max q.2.length (maxUserCount rest) := rfl
    rcases max_choice q.2.length (maxUserCount rest) with hc | hc
    · exact ⟨q, List.mem_cons_self q rest, by rw [hcons, hc]⟩
    · have hrest : maxUserCount rest ≠ 0 := by
        rw [hcons, hc] at h
        exact h
      obtain ⟨p, hp, hlen⟩ := ih hrest
      refine ⟨p, List.mem_cons_of_mem q hp, ?_⟩
      rw [hcons, hc]
      exact hlen

/-- The strict-improvement fold returns the first entry attaining the
maximal count `M`. -/
theorem topFold_finds_first (l : List (PartialEmoji × List Nat))
    (b : PartialEmoji × Nat) (M : Nat) (hb : ∀ p ∈ l, p.2.length ≤ M)
    (hlt : b.2 < M) (hex : ∃ p ∈ l, p.2.length = M) :
    ∃ p, l.find? (fun q => q.2.length == M) = some p ∧
      (l.foldl topFoldStep b).1 = p.1 ∧ p.2.length = M := by
  induction l generalizing b with
  | nil => simp at hex
  | cons p rest ih =>
    by_cases hp : p.2.length = M
    · refine ⟨p, ?_, ?_, hp⟩
      · simp [List.find?_cons, hp]
      · have hgt : p.2.length > b.2 := by omega
        simp only [List.foldl_cons, topFoldStep, hgt, if_true]
        rw [topFold_const rest p.1 p.2.length
          (fun q hq => by
            have := hb q (List.mem_cons_of_mem p hq)
            omega)]
    · have hplt : p.2.length < M :=
        Nat.lt_of_le_of_ne (hb p (List.mem_cons_self p rest)) hp
      have hex2 : ∃ q ∈ rest, q.2.length = M := by
        rcases hex with ⟨q, hq, hlen⟩
        rcases List.mem_cons.mp hq with hq | hq
        · exact absurd (hq ▸ hlen) hp
        · exact ⟨q, hq, hlen⟩
      have hb2 : ∀ q ∈ rest, q.2.length ≤ M :=
        fun q hq => hb q (List.mem_cons_of_mem p hq)
      have hlt2 : (topFoldStep b p).2 < M := by
        simp only [topFoldStep]
        split <;> omega
      obtain ⟨q, hfind, hfold, hlen⟩ := ih (topFoldStep b p) hb2 hlt2 hex2
      have hbp : (p.2.length == M) = false := by simpa using hp
      refine ⟨q, ?_, ?_, hlen⟩
      · simp [List.find?_cons, hbp, hfind]
      · simpa using hfold

/-- A user of the union set comes from some user list of the map. -/
theorem mem_unionUsers (m : ReactionMap) (u : Nat) :
    u ∈ unionUsers m ↔ ∃ p ∈ m, u ∈ p.2 := by
  induction m with
  | nil => simp [unionUsers]
  | cons p rest ih =>
    simp only [unionUsers, List.foldr_cons, Finset.mem_union, List.mem_toFinset] at ih ⊢
    rw [ih]
    constructor
    · rintro (h | ⟨q, hq, hu⟩)
      · exact ⟨p, List.mem_cons_self p rest, h⟩
      · exact ⟨q, List.mem_cons_of_mem p hq, hu⟩
    · rintro ⟨q, hq, hu⟩
      rcases List.mem_cons.mp hq with hq | hq
      · exact Or.inl (hq ▸ hu)
      · exact Or.inr ⟨q, hq, hu⟩

/-- A decided create or update implies the count reached the threshold. -/
theorem decision_requires_threshold (c T : Nat) (sql : Option (Nat × Nat))
    (h : update_starboard_decision c T sql = .create ∨
      ∃ sbid, update_starboard_decision c T sql = .updateButton sbid) :
    T ≤ c := by
  by_cases hle : T ≤ c
  · exact hle
  · exfalso
    rcases h with h | ⟨sbid, h⟩ <;>
      (unfold update_starboard_decision at h
       rw [if_neg hle] at h
       rcases sql with _ | ⟨mid, sc⟩ <;> simp at h)

/-- C10: with the effective threshold at least 1, a decided create or
update implies the aggregated count is at least 1, hence the watched
reaction map is non-empty and `get_top_emoji` succeeds, returning the
first-encountered entry whose user list has maximal size. -/
theorem C10_top_emoji_welldefined (db : StarredDb)
    (message_id message_channel_id : Nat) (reaction_map : ReactionMap)
    (cfg : StarboardChannelConfig) (w : WebhookOutcomes)
    (hreq : 1 ≤ relevant_required_reactions cfg message_channel_id)
    (hintent : (update_starboard_message db message_id message_channel_id
        reaction_map cfg w).intent = .create ∨
      ∃ sbid, (update_starboard_message db message_id message_channel_id
        reaction_map cfg w).intent = .updateButton sbid) :
    1 ≤ uniqueReactionCount (relevantReactionMap reaction_map cfg message_channel_id) ∧
    relevantReactionMap reaction_map cfg message_channel_id ≠ [] ∧
    ∃ p : PartialEmoji × List Nat,
      (relevantReactionMap reaction_map cfg message_channel_id).find?
        (fun q => q.2.length ==
          maxUserCount (relevantReactionMap reaction_map cfg message_channel_id)) =
        some p ∧
      get_top_emoji (relevantReactionMap reaction_map cfg message_channel_id) =
        some p.1 := by
  rw [update_starboard_message_intent db message_id message_channel_id
    reaction_map cfg w] at hintent
  have hT := decision_requires_threshold _ _ _ hintent
  have hcount : 1 ≤ uniqueReactionCount
      (relevantReactionMap reaction_map cfg message_channel_id) := le_trans hreq hT
  refine ⟨hcount, ?_, ?_⟩
  · intro he
    rw [he] at hcount
    simp [uniqueReactionCount] at hcount
  · have hM : maxUserCount (relevantReactionMap reaction_map cfg message_channel_id) ≠ 0 := by
      intro hM0
      rw [uniqueReactionCount_eq_card] at hcount
      have hne : (unionUsers (relevantReactionMap reaction_map cfg message_channel_id)).Nonempty :=
        Finset.card_pos.mp hcount
      obtain ⟨u, hu⟩ := hne
      obtain ⟨p, hp, hup⟩ := (mem_unionUsers _ u).mp hu
      have h1 : 1 ≤ p.2.length := List.length_pos.mpr (List.ne_nil_of_mem hup)
      have h2 := length_le_maxUserCount _ p hp
      omega
    rcases hm : relevantReactionMap reaction_map cfg message_channel_id with
      _ | ⟨⟨e0, us0⟩, rest⟩
    · rw [hm] at hcount
      simp [uniqueReactionCount] at hcount
    · rw [hm] at hM
      have hb : ∀ q ∈ (e0, us0) :: rest, q.2.length ≤ maxUserCount ((e0, us0) :: rest) :=
        fun q hq => length_le_maxUserCount _ q hq
      have hex := maxUserCount_attained ((e0, us0) :: rest) hM
      have hlt : ((e0, 0) : PartialEmoji × Nat).2 < maxUserCount ((e0, us0) :: rest) :=
        Nat.pos_of_ne_zero hM
      obtain ⟨p, hfind, hfold, hlen⟩ :=
        topFold_finds_first ((e0, us0) :: rest) (e0, 0) _ hb hlt hex
      have hg : get_top_emoji ((e0, us0) :: rest) =
          some ((((e0, us0) :: rest).foldl topFoldStep (e0, 0)).1) := rfl
      exact ⟨p, hfind, by rw [hg, hfold]⟩

/-- Witness for C10 at a single-reaction create. -/
theorem C10_top_emoji_welldefined_witness :
    1 ≤ uniqueReactionCount (relevantReactionMap [(starEmoji, [1])] cfgC1 5) ∧
    relevantReactionMap [(starEmoji, [1])] cfgC1 5 ≠ [] ∧
    ∃ p : PartialEmoji × List Nat,
      (relevantReactionMap [(starEmoji, [1])] cfgC1 5).find?
        (fun q => q.2.length ==
          maxUserCount (relevantReactionMap [(starEmoji, [1])] cfgC1 5)) = some p ∧
      get_top_emoji (relevantReactionMap [(starEmoji, [1])] cfgC1 5) = some p.1 :=
  C10_top_emoji_welldefined [] 100 5 [(starEmoji, [1])] cfgC1 wOk (by decide)
    (Or.inl (by decide))

/-! ## Serialization round-trip lemmas -/

theorem natDigitsAux_lt10 (fuel : Nat) : ∀ n d, d ∈ natDigitsAux fuel n → d < 10 := by
  induction fuel with
  | zero =>
    intro n d hd
    simp only [natDigitsAux, List.mem_singleton] at hd
    omega
  | succ f ih =>
    intro n d hd
    by_cases h : n < 10
    · simp only [natDigitsAux, if_pos h, List.mem_singleton] at hd
      omega
    · simp only [natDigitsAux, if_neg h, List.mem_append, List.mem_singleton] at hd
      rcases hd with hd | hd
      · exact ih (n / 10) d hd
      · omega

theorem natDigitsAux_ne_nil (fuel n : Nat) : natDigitsAux fuel n ≠ [] := by
  cases fuel with
  | zero => simp [natDigitsAux]
  | succ f => by_cases h : n < 10 <;> simp [natDigitsAux, h]

theorem natDigitsAux_foldl (fuel : Nat) : ∀ n a, n ≤ fuel →
    (natDigitsAux fuel n).foldl (fun acc d => acc * 10 + d) a =
      a * 10 ^ (natDigitsAux fuel n).length + n := by
  induction fuel with
  | zero =>
    intro n a hn
    have hz : n = 0 := by omega
    subst hz
    simp [natDigitsAux]
  | succ f ih =>
    intro n a hn
    by_cases h : n < 10
    · simp [natDigitsAux, h]
    · have hdiv : n / 10 ≤ f := by
        have h2 : n / 10 < n := Nat.div_lt_self (by omega) (by omega)
        omega
      simp only [natDigitsAux, if_neg h, List.foldl_append, List.length_append,
        List.length_cons, List.length_nil, List.foldl_cons, List.foldl_nil]
      rw [ih (n / 10) a hdiv, pow_succ, ← mul_assoc]
      omega

theorem charToDigit?_digitChar (d : Nat) (h : d < 10) :
    charToDigit? (digitChar d) = some d := by
  interval_cases d <;> decide

theorem isDigitChar_digitChar (d : Nat) (h : d < 10) :
    isDigitChar (digitChar d) = true := by
  interval_cases d <;> decide

theorem digitCharsToNatAux_map (ds : List Nat) (h : ∀ d ∈ ds, d < 10) :
    ∀ a, digitCharsToNatAux a (ds.map digitChar) =
      some (ds.foldl (fun acc d => acc * 10 + d) a) := by
  induction ds with
  | nil => intro a; rfl
  | cons d rest ih =>
    intro a
    have hd : d < 10 := h d (List.mem_cons_self _ _)
    simp only [List.map_cons, digitCharsToNatAux, charToDigit?_digitChar d hd,
      List.foldl_cons]
    exact ih (fun q hq => h q (List.mem_cons_of_mem _ hq)) (a * 10 + d)

/-- Parsing the canonical decimal print of `n` recovers `n`. -/
theorem digitCharsToNat?_natToDigitChars (n : Nat) :
    digitCharsToNat? (natToDigitChars n) = some n := by
  have hfold := natDigitsAux_foldl n n 0 le_rfl
  have hmem : ∀ q ∈ natDigits n, q < 10 := fun q hq => natDigitsAux_lt10 n n q hq
  have haux := digitCharsToNatAux_map (natDigits n) hmem 0
  have hne : (natDigits n).map digitChar ≠ [] := by
    simpa [natDigits] using natDigitsAux_ne_nil n n
  unfold natToDigitChars digitCharsToNat?
  rw [if_neg (by simp [List.isEmpty_eq_false.mpr hne]), haux]
  unfold natDigits at hfold ⊢
  rw [hfold]
  simp

theorem takeWhile_all_append (p : Char → Bool) (l1 : List Char) (x : Char)
    (l2 : List Char) (h1 : ∀ c ∈ l1, p c = true) (hx : p x = false) :
    (l1 ++ x :: l2).takeWhile p = l1 := by
  induction l1 with
  | nil => simp [List.takeWhile_cons, hx]
  | cons c cs ih =>
    have hc := h1 c (List.mem_cons_self _ _)
    simp only [List.cons_append, List.takeWhile_cons, hc, if_true]
    rw [ih (fun q hq => h1 q (List.mem_cons_of_mem _ hq))]

/-- Running `parseBody` on the canonical `name:digits>` tail recovers the parts. -/
theorem parseBody_canonical (animated : Bool) (name digits : List Char)
    (hname : name ≠ []) (hnc : name.all isNameChar = true)
    (hdig : digits ≠ []) (hd : ∀ c ∈ digits, isDigitChar c = true) :
    parseBody animated (name ++ ':' :: (digits ++ ['>'])) =
      (digitCharsToNat? digits).map (fun i => (animated, name, i)) := by
  have hshape : name ++ ':' :: (digits ++ ['>']) =
      ((name ++ [':']) ++ digits) ++ ['>'] := by simp
  rw [hshape]
  unfold parseBody
  rw [List.getLast?_concat, if_pos rfl, List.dropLast_concat]
  have hrev : ((name ++ [':']) ++ digits).reverse =
      digits.reverse ++ ':' :: name.reverse := by simp
  rw [hrev]
  have hdrev : ∀ c ∈ digits.reverse, isDigitChar c = true := fun c hc =>
    hd c (List.mem_reverse.mp hc)
  have htake : (digits.reverse ++ ':' :: name.reverse).takeWhile isDigitChar =
      digits.reverse :=
    takeWhile_all_append isDigitChar digits.reverse ':' name.reverse hdrev (by decide)
  have hdigne : digits.reverse.isEmpty = false :=
    List.isEmpty_eq_false.mpr (by simpa using hdig)
  have hnamene : name.reverse.isEmpty = false :=
    List.isEmpty_eq_false.mpr (by simpa using hname)
  unfold parseInterior
  rw [htake, List.drop_left, List.head?_cons, if_pos rfl, List.tail_cons,
    List.reverse_reverse, List.reverse_reverse]
  simp [hdigne, hnamene, hnc]

/-- Running `parseCustom` on the canonical custom-emoji string recovers the
parts. -/
theorem parseCustom_canonical (a : Bool) (name digits : List Char)
    (hname : name ≠ []) (hnc : name.all isNameChar = true)
    (hdig : digits ≠ []) (hd : ∀ c ∈ digits, isDigitChar c = true) :
    parseCustom (['<'] ++ (if a then ['a'] else []) ++ [':'] ++ name ++ [':'] ++
        digits ++ ['>']) =
      (digitCharsToNat? digits).map (fun i => (a, name, i)) := by
  cases a
  · have hshape : (['<'] ++ (if false then ['a'] else []) ++ [':'] ++ name ++ [':'] ++
        digits ++ ['>']) = '<' :: ':' :: (name ++ ':' :: (digits ++ ['>'])) := by
      simp
    rw [hshape]
    unfold parseCustom
    rw [List.head?_cons, if_pos rfl, List.tail_cons]
    unfold parseAfterLt
    rw [List.head?_cons, if_neg (by decide), if_pos rfl, List.tail_cons]
    exact parseBody_canonical false name digits hname hnc hdig hd
  · have hshape : (['<'] ++ (if true then ['a'] else []) ++ [':'] ++ name ++ [':'] ++
        digits ++ ['>']) = '<' :: 'a' :: ':' :: (name ++ ':' :: (digits ++ ['>'])) := by
      simp
    rw [hshape]
    unfold parseCustom
    rw [List.head?_cons, if_pos rfl, List.tail_cons]
    unfold parseAfterLt
    rw [List.head?_cons, if_pos rfl, List.tail_cons, List.head?_cons, if_pos rfl,
      List.tail_cons]
    exact parseBody_canonical true name digits hname hnc hdig hd

/-- Reading back the printed form of a well-formed emoji recovers it. -/
theorem emojiFromStr_emojiToStr (e : PartialEmoji) (h : emojiWF e = true) :
    emojiFromStr (emojiToStr e) = e := by
  cases e with
  | unicode n =>
    have hh : ¬(n.data.head? = some '<') := by
      simpa [emojiWF, bne_iff_ne] using h
    have hp : parseCustom n.data = none := by
      unfold parseCustom
      rw [if_neg hh]
    show emojiFromStr n.data = PartialEmoji.unicode n
    unfold emojiFromStr
    rw [hp]
  | custom a n i =>
    simp only [emojiWF, Bool.and_eq_true] at h
    obtain ⟨hne, hnc⟩ := h
    have hname : n.data ≠ [] := by
      intro hnil
      rw [hnil] at hne
      simp at hne
    have hdigne : natToDigitChars i ≠ [] := by
      simpa [natToDigitChars, natDigits] using natDigitsAux_ne_nil i i
    have hdigall : ∀ c ∈ natToDigitChars i, isDigitChar c = true := by
      intro c hc
      obtain ⟨d, hdm, rfl⟩ := List.mem_map.mp hc
      exact isDigitChar_digitChar d (natDigitsAux_lt10 i i d hdm)
    show emojiFromStr (emojiToStr (.custom a n i)) = _
    unfold emojiFromStr emojiToStr
    rw [parseCustom_canonical a n.data (natToDigitChars i) hname hnc hdigne hdigall,
      digitCharsToNat?_natToDigitChars]
    rfl

/-- Dumping then loading a well-formed override is the identity. -/
theorem loadOverride_dumpOverride (ov : ChannelConfigOverride)
    (h : overrideWF ov = true) : loadOverride (dumpOverride ov) = ov := by
  obtain ⟨k, rr, es⟩ := ov
  cases es with
  | none => rfl
  | some es =>
    simp only [overrideWF, Bool.and_eq_true, List.all_eq_true] at h
    obtain ⟨hne, hall⟩ := h
    have hne' : es.isEmpty = false := by simpa using hne
    have hmape : (es.map emojiToStr).isEmpty = false := by
      cases es with
      | nil => simp at hne'
      | cons e es' => rfl
    have hmap : (es.map emojiToStr).map emojiFromStr = es := by
      rw [List.map_map]
      have hcong : ∀ x ∈ es, (emojiFromStr ∘ emojiToStr) x = id x := fun x hx =>
        emojiFromStr_emojiToStr x (hall x hx)
      rw [List.map_eq_map_iff.mpr hcong, List.map_id]
    simp only [dumpOverride, loadOverride, hne', Bool.false_eq_true, if_false,
      hmape, hmap]

/-- Dumping then reloading a well-formed override table reproduces it. -/
theorem load_dump_overrides (ovs : List (Nat × ChannelConfigOverride))
    (h : ∀ p ∈ ovs, (p.1 == p.2.override_for) = true ∧ overrideWF p.2 = true) :
    ((ovs.map Prod.snd).map dumpOverride).map
      (fun o => (o.override_for, loadOverride o)) = ovs := by
  induction ovs with
  | nil => rfl
  | cons p rest ih =>
    obtain ⟨hkey, hwf⟩ := h p (List.mem_cons_self _ _)
    have hk : p.1 = p.2.override_for := by simpa using hkey
    simp only [List.map_cons, List.cons.injEq]
    constructor
    · rw [loadOverride_dumpOverride p.2 hwf]
      have hfor : (dumpOverride p.2).override_for = p.2.override_for := rfl
      rw [hfor, ← hk]
    · exact ih (fun q hq => h q (List.mem_cons_of_mem _ hq))

/-- Dumping then loading a well-formed channel config reproduces the
channel entry. -/
theorem loadChannel_dumpChannel (cfg : StarboardChannelConfig)
    (h : configWF cfg = true) : loadChannel (dumpChannel cfg) = (cfg.channel_id, cfg) := by
  obtain ⟨cid, rr, we, ovs, ex, eii⟩ := cfg
  simp only [configWF, Bool.and_eq_true, List.all_eq_true] at h
  obtain ⟨hwe, hovs⟩ := h
  have h1 : (we.map emojiToStr).map emojiFromStr = we := by
    rw [List.map_map]
    have hcong : ∀ x ∈ we, (emojiFromStr ∘ emojiToStr) x = id x := fun x hx =>
      emojiFromStr_emojiToStr x (hwe x hx)
    rw [List.map_eq_map_iff.mpr hcong, List.map_id]
  have h2 := load_dump_overrides ovs hovs
  simp only [dumpChannel, loadChannel, Option.getD_some, h1, h2]

/-- Dumping then reloading a well-formed channel table reproduces it. -/
theorem load_dump_channels (chs : List (Nat × StarboardChannelConfig))
    (h : ∀ cp ∈ chs, (cp.1 == cp.2.channel_id) = true ∧ configWF cp.2 = true) :
    ((chs.map Prod.snd).map dumpChannel).map loadChannel = chs := by
  induction chs with
  | nil => rfl
  | cons cp rest ih =>
    obtain ⟨hkey, hwf⟩ := h cp (List.mem_cons_self _ _)
    have hk : cp.1 = cp.2.channel_id := by simpa using hkey
    simp only [List.map_cons, List.cons.injEq]
    exact ⟨by rw [loadChannel_dumpChannel cp.2 hwf, ← hk],
      ih (fun q hq => h q (List.mem_cons_of_mem _ hq))⟩

/-- C9 counterexample: the round trip is not the identity on every
configuration value.  An override whose `extra_emojis` is the empty list
collapses to `None`; an override stored under a key other than its
`override_for`, or a config stored under a key other than its
`channel_id`, is re-keyed. -/
theorem C9_counterexample :
    GuildConfigs.load (GuildConfigs.dump gBad) ≠ some gBad ∧
    GuildConfigs.load (GuildConfigs.dump gBadKey) ≠ some gBadKey ∧
    GuildConfigs.load (GuildConfigs.dump gBadChan) ≠ some gBadChan :=
  ⟨by decide, by decide, by decide⟩

/-- C9 (amended): on well-formed configurations — overrides and configs
stored under their own keys, override emoji lists non-empty when present,
emoji names in the serializable class — dumping and loading back
reproduces an equal configuration, overrides and exclusion mode
included. -/
theorem C9_load_dump_roundtrip (g : GuildConfigs) (h : guildConfigsWF g = true) :
    GuildConfigs.load (GuildConfigs.dump g) = some g := by
  induction g with
  | nil => rfl
  | cons gp rest ih =>
    simp only [guildConfigsWF, List.all_cons, Bool.and_eq_true] at h
    obtain ⟨hgp, hrest⟩ := h
    have hchan : ((gp.2.map Prod.snd).map dumpChannel).map loadChannel = gp.2 :=
      load_dump_channels gp.2 (fun cp hcp => by
        simpa using List.all_eq_true.mp hgp cp hcp)
    have hih : GuildConfigs.load (GuildConfigs.dump rest) = some rest := by
      apply ih
      simpa [guildConfigsWF] using hrest
    show GuildConfigs.load
        ((natToDigitChars gp.1, (gp.2.map Prod.snd).map dumpChannel) ::
          GuildConfigs.dump rest) = some (gp :: rest)
    unfold GuildConfigs.load
    rw [digitCharsToNat?_natToDigitChars, hih, hchan]

/-- Witness for the amended C9 at a concrete configuration with a unicode
and a custom watched emoji, two overrides and an inverted exclusion
list. -/
theorem C9_load_dump_roundtrip_witness :
    GuildConfigs.load (GuildConfigs.dump gGood) = some gGood :=
  C9_load_dump_roundtrip gGood (by decide)

end Breadboard
